import Mathlib

/-!
Verification development for the search4all session/response orchestration core
(`search4all.py`).

Modeling conventions:
* Python `str` is embedded as `List Char` (`Str`); a streamed response is the
  concatenation of its chunks, matching the spec's rule that decoding is defined
  over the whole concatenated output.
* The regex split of `extract_all_sections` is embedded by `findSplit`, which
  splits at the first occurrence of a marker, exactly as the lazy groups of
  `r"(.*?)__LLM_RESPONSE__(.*?)(__RELATED_QUESTIONS__(.*))?$"` do.  (Python `$`
  also matches just before one final trailing newline; since both affected
  groups are passed through `str.strip()`, the decoded output is the same, and
  end-of-input is used here.)
* `json.dumps` (an external library call) is embedded for the two record shapes
  the orchestrator serializes: search contexts `{name, url, snippet}` (the
  normalized provider result shape of spec section 3) and related questions
  `{question}`; default separators and `ensure_ascii=True` escaping.
* Store lookups, the search backend, and the generation backend are external
  collaborators; one run of `query_function` is modeled as a function of their
  (given) outcomes, producing the ordered list of observable events of that
  request: backend invocations, key-value submissions, client error / replay
  responses, and the streamed chunks.
-/

namespace Search4all

/-- Python `str` embedded as a list of characters. -/
abbrev Str := List Char

/-- The characters Python `str.strip()` removes: those with `str.isspace()`
true (ASCII whitespace, the information separators, NEL, NBSP, and the
Unicode space/line/paragraph separators). -/
def isPySpace (c : Char) : Bool :=
  c = ' ' || c = '\t' || c = '\n' || c = '\x0b' || c = '\x0c' || c = '\x0d'
    || (28 ≤ c.toNat && c.toNat ≤ 31) || c.toNat = 133 || c.toNat = 160
    || c.toNat = 5760 || (8192 ≤ c.toNat && c.toNat ≤ 8202)
    || c.toNat = 8232 || c.toNat = 8233 || c.toNat = 8239 || c.toNat = 8287
    || c.toNat = 12288

/-- Python `str.strip()`: remove whitespace from both ends. -/
def pyStrip (s : Str) : Str :=
  ((s.dropWhile isPySpace).reverse.dropWhile isPySpace).reverse

/-- First sentinel marker of the encoded stream. -/
def MARKER1 : Str := "__LLM_RESPONSE__".toList

/-- Second sentinel marker of the encoded stream. -/
def MARKER2 : Str := "__RELATED_QUESTIONS__".toList

/-- Split `s` at the first occurrence of `m`: the text before that occurrence
and the text after it (the occurrence itself removed).  `none` when `m` does
not occur in `s` (for nonempty `m`). -/
def findSplit (m : Str) : Str → Option (Str × Str)
  | [] => if m.isPrefixOf ([] : Str) then some ([], []) else none
  | c :: s =>
    if m.isPrefixOf (c :: s) then some ([], (c :: s).drop m.length)
    else
      match findSplit m s with
      | some (p, q) => some (c :: p, q)
      | none => none

/-- `extract_all_sections` (search4all.py lines 131-147): decode a stored blob
into (search results, llm response, related questions).  The regex match fails
exactly when the first marker is absent, giving `(None, None, None)`; otherwise
the first two sections are stripped, and the optional fourth group falls back
to the empty string both when the second marker is absent and when the captured
text is empty (Python's falsy test on `match.group(4)`). -/
def extract_all_sections (text : Str) : Option Str × Option Str × Option Str :=
  match findSplit MARKER1 text with
  | none => (none, none, none)
  | some (before, rest) =>
    match findSplit MARKER2 rest with
    | none => (some (pyStrip before), some (pyStrip rest), some [])
    | some (mid, tailPart) =>
      (some (pyStrip before), some (pyStrip mid),
        some (if tailPart = [] then [] else pyStrip tailPart))

/-- `re.sub(r"\[/?INST\]", "", query)` (line 883): one left-to-right pass that
removes each non-overlapping occurrence of `[INST]` or `[/INST]`.  At a given
position the regex matches `[/INST]` when the optional slash is present and
`[INST]` otherwise; the scan resumes after the removed occurrence. -/
def sanitize : Str → Str
  | '[' :: '/' :: 'I' :: 'N' :: 'S' :: 'T' :: ']' :: rest => sanitize rest
  | '[' :: 'I' :: 'N' :: 'S' :: 'T' :: ']' :: rest => sanitize rest
  | c :: s => c :: sanitize s
  | [] => []

/-- `MAX_HISTORY_LEN` (line 58). -/
def MAX_HISTORY_LEN : Nat := 10

/-- `KVWrapper.append` (lines 119-126): read the current sequence (missing key
defaults to `[]`), keep its last `MAX_HISTORY_LEN` elements (Python slice
`[-MAX_HISTORY_LEN:]`), append the new value, write back. -/
def KVWrapper.append (cur : List α) (v : α) : List α :=
  cur.drop (cur.length - MAX_HISTORY_LEN) ++ [v]

/-! ## JSON serialization (model of `json.dumps` on the two serialized shapes) -/

/-- Lower-case hexadecimal digit. -/
def hexDigit (n : Nat) : Char :=
  if n < 10 then Char.ofNat (48 + n) else Char.ofNat (97 + (n - 10))

/-- Four hexadecimal digits, as in a JSON `\uXXXX` escape. -/
def hex4 (n : Nat) : Str :=
  [hexDigit (n / 4096 % 16), hexDigit (n / 256 % 16), hexDigit (n / 16 % 16), hexDigit (n % 16)]

/-- Character escaping of `json.dumps` with its default `ensure_ascii=True`:
backslash, double quote and the named control escapes; other control and
non-ASCII characters as `\uXXXX` (a surrogate pair beyond the BMP). -/
def escChar (c : Char) : Str :=
  if c = '\\' then ['\\', '\\']
  else if c = '"' then ['\\', '"']
  else if c = '\n' then ['\\', 'n']
  else if c = '\x0d' then ['\\', 'r']
  else if c = '\t' then ['\\', 't']
  else if c.toNat = 8 then ['\\', 'b']
  else if c.toNat = 12 then ['\\', 'f']
  else if 32 ≤ c.toNat && c.toNat ≤ 126 then [c]
  else if c.toNat < 65536 then '\\' :: 'u' :: hex4 c.toNat
  else
    ('\\' :: 'u' :: hex4 (55296 + (c.toNat - 65536) / 1024))
      ++ ('\\' :: 'u' :: hex4 (56320 + (c.toNat - 65536) % 1024))

/-- A JSON string literal. -/
def dumpsStr (s : Str) : Str := '"' :: (s.map escChar).flatten ++ ['"']

/-- Opening curly brace character. -/
def lbrace : Char := '\x7b'

/-- Closing curly brace character. -/
def rbrace : Char := '\x7d'

/-- One normalized search result (spec section 3 `SearchContext`): the common
`{name, url, snippet}` shape the provider adapters produce. -/
structure SearchContext where
  name : Str
  url : Str
  snippet : Str
  deriving DecidableEq

/-- `json.dumps` of one context object (insertion order `name`, `url`,
`snippet`; default `", "` / `": "` separators). -/
def ctxObj (c : SearchContext) : Str :=
  lbrace :: (dumpsStr "name".toList ++ ':' :: ' ' :: dumpsStr c.name
    ++ ',' :: ' ' :: dumpsStr "url".toList ++ ':' :: ' ' :: dumpsStr c.url
    ++ ',' :: ' ' :: dumpsStr "snippet".toList ++ ':' :: ' ' :: dumpsStr c.snippet) ++ [rbrace]

/-- `json.dumps(contexts)`: a JSON array of context objects. -/
def ctxDumps (cs : List SearchContext) : Str :=
  '[' :: List.intercalate (',' :: [' ']) (cs.map ctxObj) ++ [']']

/-- `json.dumps` of one related-question object `{"question": q}`. -/
def relObj (q : Str) : Str :=
  lbrace :: (dumpsStr "question".toList ++ ':' :: ' ' :: dumpsStr q) ++ [rbrace]

/-- `json.dumps(related_questions)`: a JSON array of question objects. -/
def relDumps (qs : List Str) : Str :=
  '[' :: List.intercalate (',' :: [' ']) (qs.map relObj) ++ [']']

/-! ## Stream encoding (`_raw_stream_response`, lines 725-763) -/

/-- The first separator yielded between the context JSON and the answer. -/
def SEP1 : Str := "\n\n__LLM_RESPONSE__\n\n".toList

/-- The second separator yielded before the related-questions JSON. -/
def SEP2 : Str := "\n\n__RELATED_QUESTIONS__\n\n".toList

/-- The disclaimer yielded ahead of the answer when the search produced no
contexts (lines 737-742). -/
def NO_RESULTS_WARNING : Str :=
  "(The search engine returned nothing for this query. Please take the answer with a grain of salt.)\n\n".toList

/-- `json.dumps` of the awaited related-questions value: the questions array,
or `null` when the generator returned Python `None`. -/
def relPayload : Option (List Str) → Str
  | none => "null".toList
  | some qs => relDumps qs

/-- The concatenation of everything `_raw_stream_response` yields: context
JSON, first separator, the empty-search disclaimer when `contexts` is falsy,
the answer text (concatenation of the relayed tokens), and — only when a
related-questions future was passed — the second separator and its payload. -/
def raw_stream_response (contexts : List SearchContext) (answer : Str)
    (related : Option (Option (List Str))) : Str :=
  ctxDumps contexts ++ SEP1
    ++ (if contexts = [] then NO_RESULTS_WARNING else [])
    ++ answer
    ++ (match related with
        | none => []
        | some r => SEP2 ++ relPayload r)

/-! ## Related-question generator (`get_related_questions`, lines 566-722)

The prompts sent to the backend do not influence the control flow, so one call
is modeled as a function of the backend's outcome.  Parsing of a tool-call
argument payload is collapsed to its result: `ToolParse.ok qs` when
`json.loads` produced a dict whose `"questions"` entry iterates as `qs`, and
`ToolParse.failed` when `json.loads` raised or the key/shape was wrong (both
raise and are caught by the surrounding `except`, which returns `[]`). -/

/-- Outcome of parsing a tool-call `arguments` / `input` payload. -/
inductive ToolParse where
  | ok (questions : List Str)
  | failed
  deriving DecidableEq

/-- One content block of an Anthropic response: a tool-use block carrying its
tool name and parsed input, or any other block type. -/
inductive ClaudeBlock where
  | toolUse (name : Str) (input : ToolParse)
  | other
  deriving DecidableEq

/-- The first choice's message of an OpenAI-style response: the parsed
arguments of the first tool call when `tool_calls` is present, and the text
content (`[]` when `message.content` is `None` or empty, both falsy). -/
structure OpenAIMsg where
  tool_calls : Option ToolParse
  content : Str
  deriving DecidableEq

/-- Outcome of the related-questions backend call. -/
inductive RelResponse where
  | raised
  | claude (blocks : List ClaudeBlock)
  | openai (message : Option OpenAIMsg)
  deriving DecidableEq

/-- Whether a block is the `ask_related_questions` tool-use block the Claude
branch's loop selects (lines 620-623). -/
def isAskTool : ClaudeBlock → Bool
  | ClaudeBlock.toolUse n _ => n = "ask_related_questions".toList
  | ClaudeBlock.other => false

/-- Python `content.split('\n')` (keeps empty pieces). -/
def splitNL : Str → List Str
  | [] => [[]]
  | c :: s =>
    if c = '\n' then [] :: splitNL s
    else
      match splitNL s with
      | h :: t => (c :: h) :: t
      | [] => [[c]]

/-- Whether a stripped line starts with a double quote. -/
def startsDQ : Str → Bool
  | c :: _ => c = '"'
  | [] => false

/-- Whether a stripped line ends with a double quote. -/
def endsDQ (q : Str) : Bool :=
  match q.getLast? with
  | some c => c = '"'
  | none => false

/-- Quote stripping of the free-text fallback (lines 702-707). -/
def stripQuotes (q : Str) : Str :=
  if startsDQ q && endsDQ q then (q.drop 1).dropLast
  else if startsDQ q then q.drop 1
  else if endsDQ q then q.dropLast
  else q

/-- The free-text fallback (lines 689-712): split the content into lines,
strip them, keep the non-empty ones, keep those starting `1.`/`2.`/`3.`,
drop the first three characters, strip, and strip surrounding quotes. -/
def extractNumbered (content : Str) : List Str :=
  ((splitNL content).map pyStrip).filter (fun l => !l.isEmpty) |>.filterMap
    (fun question =>
      if "1.".toList.isPrefixOf question || "2.".toList.isPrefixOf question
          || "3.".toList.isPrefixOf question then
        some (stripQuotes (pyStrip (question.drop 3)))
      else none)

/-- The questions delivered by the Claude branch, as a function of the first
`ask_related_questions` tool-use block (lines 618-634): its parsed questions,
capped at five; every other outcome — no such block, or a payload whose
`"questions"` access raises into the outer `except` — delivers `[]`. -/
def claudeRelated (found : Option ClaudeBlock) : List Str :=
  match found with
  | some (ClaudeBlock.toolUse _ (ToolParse.ok qs)) => qs.take 5
  | _ => []

/-- `get_related_questions`: `some qs` models a returned list of question
texts (each wrapped as `{"question": q}` by the caller-side serialization),
`none` models the Python `None` that the OpenAI branch returns when the
message has neither `tool_calls` nor truthy `content` (the inner `try` body
ends without a `return`).  Backend exceptions and parse failures are caught
and yield `some []`. -/
def get_related_questions (resp : RelResponse) : Option (List Str) :=
  match resp with
  | RelResponse.raised => some []
  | RelResponse.claude blocks => some (claudeRelated (blocks.find? isAskTool))
  | RelResponse.openai none => none
  | RelResponse.openai (some msg) =>
    match msg.tool_calls with
    | some (ToolParse.ok args) => some (args.take 5)
    | some ToolParse.failed => some []
    | none =>
      if msg.content = [] then none
      else some ((extractNumbered msg.content).take 5)

/-! ## Turn orchestrator (`query_function`, lines 781-1017)

One request is modeled as the ordered list of its observable events.  The
store, search and generation collaborators are external; their outcomes for
this request are inputs (`QueryEnv`).  Chunk granularity of the answer stream
is collapsed to one `chunk` event per yielded piece with the answer text as a
single piece — only the concatenation and the position relative to the
key-value submissions are observable to the claims. -/

/-- Outcome of one `kv.get` call: the stored value, or an exception
(`KeyError` for a missing key, or any other storage fault — both are caught
by the same handlers and behave identically). -/
inductive Lookup (α : Type) where
  | found (v : α)
  | fail
  deriving DecidableEq

/-- One stored history entry, as written by the persistence step (a dict with
the four keys always present; `search_results`, `llm_response` and
`related_questions` may be `None`). -/
structure TurnRec where
  query : Str
  search_results : Option (List SearchContext)
  llm_response : Option Str
  related_questions : Option (List Str)
  deriving DecidableEq

/-- A value stored under the plain session key: the current dict shape
`{"query": .., "txt": ..}`, or a legacy plain string (the `isinstance` check
at line 861 falls through for it). -/
inductive StoredVal where
  | dict (query : Str) (txt : Str)
  | legacy (txt : Str)
  deriving DecidableEq

/-- The collaborator outcomes feeding one request. -/
structure QueryEnv where
  should_do_chat_history : Bool
  should_do_related_questions : Bool
  histLookup : Lookup (List TurnRec)
  recLookup : Lookup StoredVal
  searchResult : List SearchContext
  genRaises : Bool
  answerText : Str
  relatedOut : Option (List Str)
  isClaude : Bool
  deriving DecidableEq

/-- The request parameters (`query`, `search_uuid`,
`generate_related_questions`). -/
structure QueryReq where
  query : Option Str
  search_uuid : Option Str
  generate_related_questions : Bool
  deriving DecidableEq

/-- Observable events of one request, in order. -/
inductive Ev where
  | clientError (msg : Str)
  | replay (txt : Str)
  | uncaughtError
  | serverError
  | searchCall
  | relatedCall
  | genCall
  | submitAppend (t : TurnRec)
  | submitPut (query : Str) (txt : Str)
  | chunk (s : Str)
  deriving DecidableEq

/-- Error text of `HTTPException("query must be provided.")`. -/
def QUERY_MISSING : Str := "query must be provided.".toList

/-- Error text of `HTTPException("search_uuid must be provided.")`. -/
def UUID_MISSING : Str := "search_uuid must be provided.".toList

/-- Result of the cache/history phase (the body of `if search_uuid:`): either
a response is returned immediately, or control falls through carrying the
search results reused from history (`none` when `contexts` is still the
initial `""`). -/
inductive CacheOut where
  | ret (evs : List Ev)
  | cont (ctxFromHist : Option (List SearchContext))

/-- Lines 812-876.  History mode: read history then the session record inside
one `try` (so a failed history lookup leaves `history = []` and skips the
record lookup; a failed record lookup leaves `result` unbound).  When the most
recent turn has a truthy query and truthy `search_results`: an equal query
returns `result["txt"]` — an `UnboundLocalError` when the record lookup
failed, a `TypeError` when the record is a legacy string, both uncaught — and
a different query reuses the stored contexts.  Cache mode: a dict record whose
`query` equals the request query replays its `txt`; every other outcome falls
through to regeneration. -/
def cachePhase (env : QueryEnv) (q : Str) : CacheOut :=
  if env.should_do_chat_history then
    match env.histLookup with
    | Lookup.fail => CacheOut.cont none
    | Lookup.found history =>
      match history.getLast? with
      | none => CacheOut.cont none
      | some last =>
        match last.search_results with
        | some (c :: cs) =>
          if last.query = [] then CacheOut.cont none
          else if last.query = q then
            CacheOut.ret
              [match env.recLookup with
               | Lookup.found (StoredVal.dict _ txt) => Ev.replay txt
               | _ => Ev.uncaughtError]
          else CacheOut.cont (some (c :: cs))
        | _ => CacheOut.cont none
  else
    match env.recLookup with
    | Lookup.found (StoredVal.dict q₀ txt) =>
      if q₀ = q then CacheOut.ret [Ev.replay txt] else CacheOut.cont none
    | _ => CacheOut.cont none

/-- The key-value submissions (lines 995-1016), executed before the
`StreamingResponse` is returned: with chat history enabled,
`extract_all_sections("".join(all_yielded_results))` runs on the still-empty
buffer, so the decoded sections are all `None` and the `json.loads` guards
are skipped, appending `{query, None, None, None}`; the record overwrite
stores `{"query": query, "txt": ""}` because `"".join(all_yielded_results)`
is evaluated at submission time. -/
def persistEvents (chatHistory : Bool) (q : Str) : List Ev :=
  (if chatHistory then [Ev.submitAppend ⟨q, none, none, none⟩] else [])
    ++ [Ev.submitPut q []]

/-- The chunks the OpenAI-path generator yields (lines 980-985 via
`_raw_stream_response`).  When no related-questions future was created the
name `related_questions_future` is unbound and evaluating the arguments of
`_raw_stream_response` raises before anything is yielded. -/
def openaiChunks (contexts : List SearchContext) (answer : Str)
    (relBound : Bool) (relOut : Option (List Str)) : List Ev :=
  if relBound then
    [Ev.chunk (ctxDumps contexts), Ev.chunk SEP1]
      ++ (if contexts = [] then [Ev.chunk NO_RESULTS_WARNING] else [])
      ++ [Ev.chunk answer, Ev.chunk SEP2, Ev.chunk (relPayload relOut)]
  else [Ev.uncaughtError]

/-- The chunks the Claude-path generator yields (lines 915-956): context JSON,
separator, the empty-search disclaimer, then the unbound-name check at line
929, the streaming call itself (whose failure is uncaught, the endpoint `try`
having already returned), the answer, and the related-questions section. -/
def claudeChunks (contexts : List SearchContext) (genRaises : Bool)
    (answer : Str) (relBound : Bool) (relOut : Option (List Str)) : List Ev :=
  [Ev.chunk (ctxDumps contexts), Ev.chunk SEP1]
    ++ (if contexts = [] then [Ev.chunk NO_RESULTS_WARNING] else [])
    ++ (if relBound then
          Ev.genCall ::
            (if genRaises then [Ev.uncaughtError]
             else [Ev.chunk answer, Ev.chunk SEP2, Ev.chunk (relPayload relOut)])
        else [Ev.uncaughtError])

/-- Lines 896-1017: the related-questions future (only when enabled both by
configuration and by the request), the generation dispatch (on the OpenAI path
the completion call runs inside the endpoint `try`, so its failure yields the
503 response before anything is persisted; on the Claude path the stream is
only created later, inside the generator), then the key-value submissions, and
finally the streamed chunks. -/
def genPhase (env : QueryEnv) (genRel : Bool) (q : Str)
    (contexts : List SearchContext) : List Ev :=
  (if env.should_do_related_questions && genRel then [Ev.relatedCall] else [])
    ++ (if env.isClaude then
          persistEvents env.should_do_chat_history q
            ++ claudeChunks contexts env.genRaises env.answerText
                (env.should_do_related_questions && genRel) env.relatedOut
        else
          Ev.genCall ::
            (if env.genRaises then [Ev.serverError]
             else
               persistEvents env.should_do_chat_history q
                 ++ openaiChunks contexts env.answerText
                     (env.should_do_related_questions && genRel) env.relatedOut))

/-- `query_function`: validation (the raw query's truthiness is checked before
any sanitization; a falsy `search_uuid` raises after the cache block), the
cache/history phase, sanitization of the query (line 883), the search call
(skipped only when history supplied a non-empty context), and the generation
phase. -/
def query_function (env : QueryEnv) (req : QueryReq) : List Ev :=
  match req.query with
  | none => [Ev.clientError QUERY_MISSING]
  | some q =>
    if q = [] then [Ev.clientError QUERY_MISSING]
    else
      match req.search_uuid with
      | none => [Ev.clientError UUID_MISSING]
      | some u =>
        if u = [] then [Ev.clientError UUID_MISSING]
        else
          match cachePhase env q with
          | CacheOut.ret evs => evs
          | CacheOut.cont ctxFromHist =>
            let q' := sanitize q
            match ctxFromHist with
            | some l =>
              if env.should_do_chat_history then
                genPhase env req.generate_related_questions q' l
              else
                Ev.searchCall :: genPhase env req.generate_related_questions q' env.searchResult
            | none =>
              Ev.searchCall :: genPhase env req.generate_related_questions q' env.searchResult

/-- The full client-visible transcript: concatenation of the streamed chunks. -/
def transcript (t : List Ev) : Str :=
  (t.filterMap fun e => match e with | Ev.chunk s => some s | _ => none).flatten

/-- The `(query, txt)` pairs submitted to `kv.put`, in order. -/
def putEvents (t : List Ev) : List (Str × Str) :=
  t.filterMap fun e => match e with | Ev.submitPut a b => some (a, b) | _ => none

/-- Whether an event is a `kv.put` submission. -/
def isPut : Ev → Bool
  | Ev.submitPut _ _ => true
  | _ => false

/-- Whether an event is a streamed chunk. -/
def isChunk : Ev → Bool
  | Ev.chunk _ => true
  | _ => false

/-- Whether an event is a client-error response. -/
def isClientError : Ev → Bool
  | Ev.clientError _ => true
  | _ => false

/-- Index of the first `kv.put` submission (length of the trace if none). -/
def firstPutIdx (t : List Ev) : Nat := t.findIdx isPut

/-- Index of the first streamed chunk (length of the trace if none). -/
def firstChunkIdx (t : List Ev) : Nat := t.findIdx isChunk

/-! ## Concrete collaborator outcomes used by the instantiated theorems -/

/-- A one-result context list. -/
def ctx1 : SearchContext := ⟨"n".toList, "u".toList, "s".toList⟩

/-- A fresh-session OpenAI-path run: no chat history mode, related questions
enabled, both lookups fail, search returns one result, generation streams
`"hello"`, the related-questions call returns one question. -/
def envFresh : QueryEnv :=
  ⟨false, true, Lookup.fail, Lookup.fail, [ctx1], false, "hello".toList,
    some ["r".toList], false⟩

/-- The request of the fresh-session run. -/
def reqFresh : QueryReq := ⟨some "q".toList, some "s".toList, true⟩

/-- History mode with a complete stored turn for query `"q"`, but a session
record lookup that fails. -/
def envHistRecFail : QueryEnv :=
  ⟨true, false, Lookup.found [⟨"q".toList, some [ctx1], some "a".toList, none⟩],
    Lookup.fail, [], false, "x".toList, none, false⟩

/-- History mode where the most recent turn answers query `"q"` but its stored
`search_results` is the empty list, while the session record holds transcript
`"T"` for `"q"`. -/
def envHistEmptySR : QueryEnv :=
  ⟨true, false, Lookup.found [⟨"q".toList, some [], some "a".toList, none⟩],
    Lookup.found (StoredVal.dict "q".toList "T".toList), [ctx1], false,
    "ans".toList, none, false⟩

/-- A request whose query is non-empty only by virtue of an `[INST]` marker. -/
def reqInstOnly : QueryReq := ⟨some "[INST]".toList, some "s".toList, true⟩

/-- A request whose query carries an embedded `[INST]` marker. -/
def reqInstMid : QueryReq := ⟨some "a[INST]b".toList, some "s".toList, true⟩

/-- A cache-mode environment holding the record `{query: "q", txt: "T"}`. -/
def envReplay : QueryEnv :=
  ⟨false, true, Lookup.fail, Lookup.found (StoredVal.dict "q".toList "T".toList),
    [ctx1], false, "hello".toList, some ["r".toList], false⟩

/-- An OpenAI tool-call reply carrying seven questions. -/
def relResp7 : RelResponse :=
  RelResponse.openai (some ⟨some (ToolParse.ok
    ["a".toList, "b".toList, "c".toList, "d".toList, "e".toList,
      "f".toList, "g".toList]), []⟩)

/-- An OpenAI tool-call reply whose arguments fail to parse. -/
def relRespFailO : RelResponse :=
  RelResponse.openai (some ⟨some ToolParse.failed, []⟩)

/-- A Claude reply whose tool-use block's `"questions"` entry fails. -/
def relRespFailC : RelResponse :=
  RelResponse.claude
    [ClaudeBlock.toolUse "ask_related_questions".toList ToolParse.failed]

/-! ## Lemmas about first-occurrence splitting -/

theorem findSplit_eq_none {m s : Str} (h : ¬ m <:+: s) : findSplit m s = none := by
  induction s with
  | nil =>
    have hm : ¬ m.isPrefixOf ([] : Str) = true := by
      simp only [ List.isPrefixOf_iff_prefix]
      exact fun hp => h hp.isInfix
    simp [findSplit, hm]
  | cons c s ih =>
    have h1 : ¬ m.isPrefixOf (c :: s) = true := by
      simp only [ List.isPrefixOf_iff_prefix]
      exact fun hp => h hp.isInfix
    have h2 : ¬ m <:+: s := fun hi => h (List.infix_cons hi)
    simp [findSplit, h1, ih h2]

theorem findSplit_isSome {m s : Str} (h : m <:+: s) :
    ∃ p q, findSplit m s = some (p, q) := by
  induction s with
  | nil =>
    have hm : m = [] := List.eq_nil_of_infix_nil h
    subst hm
    exact ⟨[], [], by simp [findSplit]⟩
  | cons c s ih =>
    by_cases hp : m.isPrefixOf (c :: s) = true
    · exact ⟨[], (c :: s).drop m.length, by simp [findSplit, hp]⟩
    · have hs : m <:+: s := by
        rcases List.infix_cons_iff.mp h with h1 | h1
        · exact absurd h1 (by simpa [ List.isPrefixOf_iff_prefix] using hp)
        · exact h1
      rcases ih hs with ⟨p, q, he⟩
      exact ⟨c :: p, q, by simp [findSplit, hp, he]⟩

theorem findSplit_sound {m : Str} :
    ∀ {s p q : Str}, findSplit m s = some (p, q) → s = p ++ m ++ q := by
  intro s
  induction s with
  | nil =>
    intro p q h
    unfold findSplit at h
    split at h
    · rename_i hc
      have hm : m = [] := by
        have : m <+: ([] : Str) := by simpa [ List.isPrefixOf_iff_prefix] using hc
        simpa using this
      simp only [Option.some.injEq, Prod.mk.injEq] at h
      obtain ⟨rfl, rfl⟩ := h
      simp [hm]
    · cases h
  | cons c s ih =>
    intro p q h
    unfold findSplit at h
    split at h
    · rename_i hc
      have hp : m <+: c :: s := by simpa [ List.isPrefixOf_iff_prefix] using hc
      obtain ⟨t, ht⟩ := hp
      simp only [Option.some.injEq, Prod.mk.injEq] at h
      obtain ⟨rfl, rfl⟩ := h
      rw [← ht]
      simp [List.drop_left]
    · rename_i hc
      cases hfs : findSplit m s with
      | none => rw [hfs] at h; cases h
      | some pq =>
        obtain ⟨p', q'⟩ := pq
        rw [hfs] at h
        simp only [Option.some.injEq, Prod.mk.injEq] at h
        obtain ⟨rfl, rfl⟩ := h
        have := ih hfs
        simp [this]

theorem findSplit_append {m : Str} (hne : m ≠ []) :
    ∀ {a : Str} {b : Str},
      (∀ i, i < a.length → ¬ m <+: (a ++ (m ++ b)).drop i) →
      findSplit m (a ++ (m ++ b)) = some (a, b) := by
  intro a
  induction a with
  | nil =>
    intro b _
    cases m with
    | nil => exact absurd rfl hne
    | cons d m' =>
      show findSplit (d :: m') (d :: (m' ++ b)) = some ([], b)
      simp only [findSplit]
      rw [if_pos (by
        simp only [ List.isPrefixOf_iff_prefix]
        exact List.prefix_append (d :: m') b)]
      have hd : (d :: (m' ++ b)).drop (d :: m').length = b :=
        List.drop_left (d :: m') b
      rw [hd]
  | cons c a' ih =>
    intro b h
    have h0 : ¬ m <+: c :: (a' ++ (m ++ b)) := by
      have := h 0 (by simp)
      simpa using this
    have hrec : findSplit m (a' ++ (m ++ b)) = some (a', b) := by
      apply ih
      intro i hi
      have := h (i + 1) (by simpa using Nat.succ_lt_succ hi)
      simpa using this
    show findSplit m (c :: (a' ++ (m ++ b))) = some (c :: a', b)
    simp only [findSplit]
    rw [if_neg (by simpa [ List.isPrefixOf_iff_prefix] using h0)]
    rw [hrec]

theorem get_of_prefix_drop {m s : Str} {i : Nat} (hp : m <+: s.drop i)
    {k : Nat} (hk : k < m.length) : s[i + k]? = m[k]? := by
  obtain ⟨t, ht⟩ := hp
  have h1 : (s.drop i)[k]? = m[k]? := by
    rw [← ht]
    exact List.getElem?_append_left hk
  rw [List.getElem?_drop] at h1
  exact h1

theorem no_match_of_newline_window {m s : Str} (hnl : ('\n' : Char) ∉ m)
    {i j : Nat} (hij : i ≤ j) (hj : j < i + m.length)
    (hc : s[j]? = some '\n') : ¬ m <+: s.drop i := by
  intro hp
  have h1 := get_of_prefix_drop hp (k := j - i) (by omega)
  rw [(by omega : i + (j - i) = j), hc] at h1
  have h2 : m.get? (j - i) = some '\n' := by
    rw [List.get?_eq_getElem?]
    exact h1.symm
  exact hnl (List.get?_mem h2)

theorem prefix_of_append_of_le {m x y : Str} (hp : m <+: x ++ y)
    (hl : m.length ≤ x.length) : m <+: x := by
  have h1 : m = (x ++ y).take m.length := List.prefix_iff_eq_take.mp hp
  rw [List.take_append_of_le_length hl] at h1
  rw [h1]
  exact List.take_prefix _ _

theorem infix_of_prefix_drop {m x : Str} {i : Nat} (hp : m <+: x.drop i) :
    m <:+: x := by
  obtain ⟨t, ht⟩ := hp
  obtain ⟨v, hv⟩ := List.drop_suffix i x
  refine ⟨v, t, ?_⟩
  rw [← hv, ← ht]
  simp

theorem no_early_match {m a b : Str} (hnl : ('\n' : Char) ∉ m)
    (hlast : a.getLast? = some '\n') (ha : ¬ m <:+: a) :
    ∀ i, i < a.length → ¬ m <+: (a ++ (m ++ b)).drop i := by
  intro i hi hp
  by_cases hcase : i + m.length ≤ a.length
  · rw [List.drop_append_of_le_length (by omega)] at hp
    have h1 : m <+: a.drop i :=
      prefix_of_append_of_le hp (by rw [List.length_drop]; omega)
    exact ha (infix_of_prefix_drop h1)
  · have hj : (a ++ (m ++ b))[a.length - 1]? = some '\n' := by
      rw [List.getElem?_append_left (by omega : a.length - 1 < a.length)]
      rw [← List.getLast?_eq_getElem?]
      exact hlast
    exact no_match_of_newline_window hnl (i := i) (j := a.length - 1)
      (by omega) (by omega) hj hp

theorem findSplit_boundary {m a b : Str} (hnl : ('\n' : Char) ∉ m)
    (hne : m ≠ []) (hlast : a.getLast? = some '\n') (ha : ¬ m <:+: a) :
    findSplit m (a ++ (m ++ b)) = some (a, b) :=
  findSplit_append hne (no_early_match hnl hlast ha)

theorem not_infix_cons_nl {m x : Str} (hnl : ('\n' : Char) ∉ m)
    (h : ¬ m <:+: x) : ¬ m <:+: '\n' :: x := by
  intro hi
  rcases List.infix_cons_iff.mp hi with hp | hi'
  · cases m with
    | nil => exact h List.nil_infix
    | cons d m' =>
      obtain ⟨t, ht⟩ := hp
      have hd : d = '\n' := by
        have := congrArg (fun l => l.head?) ht
        simpa using this
      exact hnl (hd ▸ List.mem_cons_self d m')
  · exact h hi'

theorem not_infix_snoc_nl {m x : Str} (hnl : ('\n' : Char) ∉ m)
    (hne : m ≠ []) (h : ¬ m <:+: x) : ¬ m <:+: x ++ ['\n'] := by
  rintro ⟨s, t, he⟩
  rcases List.eq_nil_or_concat t with rfl | ⟨t', c, rfl⟩
  · have he' : s ++ m = x ++ ['\n'] := by simpa using he
    obtain ⟨y, hy⟩ := Option.isSome_iff_exists.mp (List.getLast?_isSome.mpr hne)
    have h4 : (x ++ ['\n']).getLast? = some y := by
      rw [← he']
      simp [List.getLast?_append, hy]
    have h5 : '\n' = y := by simpa [List.getLast?_append] using h4
    exact hnl (h5 ▸ List.mem_of_getLast?_eq_some hy)
  · have h2 : (s ++ (m ++ t')) ++ [c] = x ++ ['\n'] := by
      simpa [List.concat_eq_append, List.append_assoc] using he
    have h3 := congrArg List.dropLast h2
    simp only [List.dropLast_concat] at h3
    exact h ⟨s, t', by simpa [List.append_assoc] using h3⟩

/-! ## Lemmas about `pyStrip` -/

theorem dropWhile_front_of_pyStrip {A : Str} (h : pyStrip A = A) :
    A.dropWhile isPySpace = A := by
  have hsub : A.dropWhile isPySpace <:+ A := List.dropWhile_suffix _
  apply hsub.eq_of_length
  have l1 : (pyStrip A).length ≤ (A.dropWhile isPySpace).length := by
    have h2 : ((A.dropWhile isPySpace).reverse.dropWhile isPySpace).length ≤
        (A.dropWhile isPySpace).reverse.length :=
      (List.dropWhile_sublist _).length_le
    simpa [pyStrip] using h2
  have l2 : (A.dropWhile isPySpace).length ≤ A.length :=
    (List.dropWhile_sublist _).length_le
  have l3 : (pyStrip A).length = A.length := by rw [h]
  omega

theorem dropWhile_back_of_pyStrip {A : Str} (h : pyStrip A = A) :
    A.reverse.dropWhile isPySpace = A.reverse := by
  have h1 := dropWhile_front_of_pyStrip h
  have h2 : (A.reverse.dropWhile isPySpace).reverse = A := by
    conv_rhs => rw [← h]
    unfold pyStrip
    rw [h1]
  have h3 := congrArg List.reverse h2
  simpa using h3

theorem pyStrip_cons_nl (x : Str) : pyStrip ('\n' :: x) = pyStrip x := by
  have hs : isPySpace '\n' = true := by decide
  simp [pyStrip, List.dropWhile_cons, hs]

theorem pyStrip_snoc_nl (x : Str) : pyStrip (x ++ ['\n']) = pyStrip x := by
  unfold pyStrip
  rw [List.dropWhile_append]
  by_cases he : (x.dropWhile isPySpace).isEmpty
  · have hx : x.dropWhile isPySpace = [] := List.isEmpty_iff.mp he
    rw [if_pos he]
    rw [hx]
    rw [show List.dropWhile isPySpace ['\n'] = [] from by decide]
  · have hs : isPySpace '\n' = true := by decide
    rw [if_neg he]
    rw [List.reverse_append]
    simp [List.dropWhile_cons, hs]

theorem pyStrip_cons_nn (x : Str) : pyStrip ('\n' :: '\n' :: x) = pyStrip x := by
  rw [pyStrip_cons_nl, pyStrip_cons_nl]

theorem pyStrip_snoc_nn (x : Str) : pyStrip (x ++ ['\n', '\n']) = pyStrip x := by
  rw [show x ++ ['\n', '\n'] = (x ++ ['\n']) ++ ['\n'] by simp,
    pyStrip_snoc_nl, pyStrip_snoc_nl]

theorem pyStrip_bracket (a : Char) (body : Str) (b : Char)
    (ha : isPySpace a = false) (hb : isPySpace b = false) :
    pyStrip (a :: body ++ [b]) = a :: body ++ [b] := by
  show pyStrip (a :: (body ++ [b])) = a :: (body ++ [b])
  unfold pyStrip
  rw [List.dropWhile_cons]
  simp only [ha, Bool.false_eq_true, if_false]
  rw [show (a :: (body ++ [b])).reverse = b :: (body.reverse ++ [a]) from by simp]
  rw [List.dropWhile_cons]
  simp only [hb, Bool.false_eq_true, if_false]
  simp

theorem pyStrip_ctxDumps (cs : List SearchContext) :
    pyStrip (ctxDumps cs) = ctxDumps cs :=
  pyStrip_bracket '[' _ ']' (by decide) (by decide)

theorem pyStrip_relDumps (qs : List Str) :
    pyStrip (relDumps qs) = relDumps qs :=
  pyStrip_bracket '[' _ ']' (by decide) (by decide)

/-! ## Shape of the encoded stream -/

theorem SEP1_decomp : SEP1 = '\n' :: '\n' :: (MARKER1 ++ ['\n', '\n']) := by decide

theorem SEP2_decomp : SEP2 = '\n' :: '\n' :: (MARKER2 ++ ['\n', '\n']) := by decide

theorem encode_decomp (C : List SearchContext) (A : Str) (R : List Str)
    (hC : C ≠ []) :
    raw_stream_response C A (some (some R)) =
      (ctxDumps C ++ ['\n', '\n']) ++ (MARKER1 ++
        ((('\n' :: '\n' :: A) ++ ['\n', '\n']) ++
          (MARKER2 ++ ('\n' :: '\n' :: relDumps R)))) := by
  simp [raw_stream_response, relPayload, SEP1_decomp, SEP2_decomp, hC,
    List.append_assoc]

/-! ## Claim C4: encode/decode round trip -/

/-- C4, as stated, is false: the decoder passes the answer segment through
`str.strip()`, so an answer with surrounding whitespace is not recovered
verbatim.  Concretely, with one context, answer `"x "` and one related
question, decoding the encoded stream returns answer `"x"`. -/
theorem C4_counterexample :
    extract_all_sections
        (raw_stream_response [ctx1] "x ".toList (some (some ["r".toList]))) ≠
      (some (ctxDumps [ctx1]), some "x ".toList, some (relDumps ["r".toList])) := by
  decide

/-- C4 (amended): for every non-empty context list `C`, answer text `A` and
related-questions list `R`, decoding the encoded stream recovers exactly the
serialized context list, the answer, and the serialized related-questions
list, provided the serialized contexts do not contain the first marker, and
the answer is whitespace-trimmed and does not contain the second marker. -/
theorem C4_roundtrip_amended (C : List SearchContext) (A : Str) (R : List Str)
    (hC : C ≠ []) (hctx : ¬ MARKER1 <:+: ctxDumps C)
    (hA2 : ¬ MARKER2 <:+: A) (hAt : pyStrip A = A) :
    extract_all_sections (raw_stream_response C A (some (some R))) =
      (some (ctxDumps C), some A, some (relDumps R)) := by
  have hnl1 : ('\n' : Char) ∉ MARKER1 := by decide
  have hnl2 : ('\n' : Char) ∉ MARKER2 := by decide
  have hne1 : MARKER1 ≠ [] := by decide
  have hne2 : MARKER2 ≠ [] := by decide
  have ha1 : ¬ MARKER1 <:+: ctxDumps C ++ ['\n', '\n'] := by
    have s1 := not_infix_snoc_nl hnl1 hne1 hctx
    have s2 := not_infix_snoc_nl hnl1 hne1 s1
    simpa [List.append_assoc] using s2
  have ha2 : ¬ MARKER2 <:+: ('\n' :: '\n' :: A) ++ ['\n', '\n'] := by
    have c1 := not_infix_cons_nl hnl2 hA2
    have c2 := not_infix_cons_nl hnl2 c1
    have s1 := not_infix_snoc_nl hnl2 hne2 c2
    have s2 := not_infix_snoc_nl hnl2 hne2 s1
    simpa [List.append_assoc] using s2
  have hl1 : (ctxDumps C ++ ['\n', '\n']).getLast? = some '\n' := by
    simp [List.getLast?_append]
  have hl2 : (('\n' :: '\n' :: A) ++ ['\n', '\n']).getLast? = some '\n' := by
    rw [List.getLast?_append]
    rw [show (['\n', '\n'] : Str).getLast? = some '\n' from by decide]
    rfl
  rw [encode_decomp C A R hC]
  unfold extract_all_sections
  rw [findSplit_boundary hnl1 hne1 hl1 ha1]
  dsimp only
  rw [findSplit_boundary hnl2 hne2 hl2 ha2]
  dsimp only
  rw [pyStrip_snoc_nn, pyStrip_ctxDumps]
  rw [pyStrip_snoc_nn, pyStrip_cons_nn, hAt]
  rw [if_neg (by simp : ¬ ('\n' :: '\n' :: relDumps R) = [])]
  rw [pyStrip_cons_nn, pyStrip_relDumps]

/-- Witness instantiating `C4_roundtrip_amended` at one context, answer
`"ans"` and one related question. -/
theorem C4_roundtrip_amended_witness :
    extract_all_sections
        (raw_stream_response [ctx1] "ans".toList (some (some ["r".toList]))) =
      (some (ctxDumps [ctx1]), some "ans".toList, some (relDumps ["r".toList])) :=
  C4_roundtrip_amended [ctx1] "ans".toList ["r".toList] (by decide) (by decide)
    (by decide) (by decide)

/-! ## Claim C5: missing second marker -/

/-- C5, as stated, is false: an input with the first marker and no second
marker decodes its related-questions section to the empty string, the same
value a present-but-empty second section decodes to — the two inputs are
indistinguishable from the decoder's output. -/
theorem C5_counterexample :
    extract_all_sections "a__LLM_RESPONSE__b".toList =
        (some "a".toList, some "b".toList, some []) ∧
      extract_all_sections "a__LLM_RESPONSE__b__RELATED_QUESTIONS__".toList =
        (some "a".toList, some "b".toList, some []) := by
  decide

/-- C5 (amended): for every input blob that contains the first marker but no
second marker, decode yields the empty string for the related-questions
section — the same representation as a present-but-empty section; only total
decode failure (no first marker) is distinguished, by `None` outputs. -/
theorem C5_absent_related_is_empty (s : Str)
    (h1 : MARKER1 <:+: s) (h2 : ¬ MARKER2 <:+: s) :
    (extract_all_sections s).2.2 = some [] := by
  obtain ⟨p, q, hf⟩ := findSplit_isSome h1
  have hs := findSplit_sound hf
  have hq : ¬ MARKER2 <:+: q := by
    rintro ⟨u, v, hu⟩
    refine h2 ⟨p ++ MARKER1 ++ u, v, ?_⟩
    rw [hs, ← hu]
    simp [List.append_assoc]
  unfold extract_all_sections
  rw [hf]
  dsimp only
  rw [findSplit_eq_none hq]

/-- Witness instantiating `C5_absent_related_is_empty`. -/
theorem C5_absent_related_is_empty_witness :
    (extract_all_sections "ctx__LLM_RESPONSE__answer".toList).2.2 = some [] :=
  C5_absent_related_is_empty "ctx__LLM_RESPONSE__answer".toList (by decide)
    (by decide)

/-! ## Claim C6: missing first marker -/

/-- C6 (confirmed): for every input blob in which the first marker does not
occur, decode returns all three sections absent — a total decode failure,
never a partial split. -/
theorem C6_no_marker_all_none (s : Str) (h : ¬ MARKER1 <:+: s) :
    extract_all_sections s = (none, none, none) := by
  unfold extract_all_sections
  rw [findSplit_eq_none h]

/-- Witness instantiating `C6_no_marker_all_none`. -/
theorem C6_no_marker_all_none_witness :
    extract_all_sections "no markers here __RELATED_QUESTIONS__ x".toList =
      (none, none, none) :=
  C6_no_marker_all_none "no markers here __RELATED_QUESTIONS__ x".toList
    (by decide)

/-! ## Claim C2: history window -/

/-- C2 is a code bug: `KVWrapper.append` slices the stored sequence to its
last `MAX_HISTORY_LEN` elements *before* appending, so a history already
holding 10 turns retains all of them and grows to 11 — nothing is dropped and
the documented cap of `MAX_HISTORY_LEN` is exceeded. -/
theorem C2_append_exceeds_cap (l : List TurnRec) (v : TurnRec)
    (h : l.length = MAX_HISTORY_LEN) :
    (KVWrapper.append l v).length = MAX_HISTORY_LEN + 1 ∧
      KVWrapper.append l v = l ++ [v] := by
  have hd : l.drop (l.length - MAX_HISTORY_LEN) = l := by
    rw [h]
    simp
  constructor
  · unfold KVWrapper.append
    rw [hd]
    simp [h]
  · unfold KVWrapper.append
    rw [hd]

/-- Witness instantiating `C2_append_exceeds_cap` at a concrete ten-turn
history. -/
theorem C2_append_exceeds_cap_witness :
    (KVWrapper.append
        (List.replicate 10 (⟨"q".toList, none, none, none⟩ : TurnRec))
        ⟨"new".toList, none, none, none⟩).length = MAX_HISTORY_LEN + 1 ∧
      KVWrapper.append
          (List.replicate 10 (⟨"q".toList, none, none, none⟩ : TurnRec))
          ⟨"new".toList, none, none, none⟩ =
        List.replicate 10 (⟨"q".toList, none, none, none⟩ : TurnRec)
          ++ [⟨"new".toList, none, none, none⟩] :=
  C2_append_exceeds_cap _ _ (by decide)

/-! ## Claim C9: related-question generator -/

/-- C9 (confirmed): every list the related-question generator returns holds at
most five questions, a raised backend call yields the empty list, and a parse
failure of the tool-call payload (on either backend protocol) yields the empty
list — the generator itself never raises, so it never fails the request. -/
theorem C9_related_questions (resp : RelResponse) :
    (∀ qs, get_related_questions resp = some qs → qs.length ≤ 5) ∧
      (resp = RelResponse.raised → get_related_questions resp = some []) ∧
      (∀ msg, resp = RelResponse.openai (some msg) →
        msg.tool_calls = some ToolParse.failed →
        get_related_questions resp = some []) ∧
      (∀ blocks n, resp = RelResponse.claude blocks →
        blocks.find? isAskTool = some (ClaudeBlock.toolUse n ToolParse.failed) →
        get_related_questions resp = some []) := by
  have hcr : ∀ f : Option ClaudeBlock, (claudeRelated f).length ≤ 5 := by
    intro f
    unfold claudeRelated
    split
    · exact List.length_take_le _ _
    · simp
  refine ⟨?_, ?_, ?_, ?_⟩
  · intro qs hqs
    cases resp with
    | raised =>
      simp only [get_related_questions, Option.some.injEq] at hqs
      simp [← hqs]
    | claude blocks =>
      simp only [get_related_questions, Option.some.injEq] at hqs
      rw [← hqs]
      exact hcr _
    | openai message =>
      cases message with
      | none => simp [get_related_questions] at hqs
      | some msg =>
        rcases htc : msg.tool_calls with _ | tp
        · by_cases hc : msg.content = []
          · simp [get_related_questions, htc, hc] at hqs
          · simp [get_related_questions, htc, hc] at hqs
            subst hqs
            exact List.length_take_le _ _
        · rcases tp with args | _
          · simp only [get_related_questions, htc, Option.some.injEq] at hqs
            rw [← hqs]
            exact List.length_take_le _ _
          · simp only [get_related_questions, htc, Option.some.injEq] at hqs
            simp [← hqs]
  · rintro rfl
    rfl
  · rintro msg rfl htc
    simp [get_related_questions, htc]
  · rintro blocks n rfl hfind
    simp [get_related_questions, hfind, claudeRelated]

/-- Witness instantiating `C9_related_questions` at a seven-question
tool-call reply, a raised call, and parse failures on both protocols. -/
theorem C9_related_questions_witness :
    (List.take 5 ["a".toList, "b".toList, "c".toList, "d".toList, "e".toList,
        "f".toList, "g".toList]).length ≤ 5 ∧
      get_related_questions RelResponse.raised = some [] ∧
      get_related_questions relRespFailO = some [] ∧
      get_related_questions relRespFailC = some [] :=
  ⟨(C9_related_questions relResp7).1 _ rfl,
    (C9_related_questions RelResponse.raised).2.1 rfl,
    (C9_related_questions relRespFailO).2.2.1 ⟨some ToolParse.failed, []⟩ rfl rfl,
    (C9_related_questions relRespFailC).2.2.2
      [ClaudeBlock.toolUse "ask_related_questions".toList ToolParse.failed]
      "ask_related_questions".toList rfl (by decide)⟩

/-! ## Trace-shape lemmas for the orchestrator -/

theorem genPhase_submits (env : QueryEnv) (gr : Bool) (q' : Str)
    (cs : List SearchContext) :
    ∀ e ∈ genPhase env gr q' cs,
      (∀ a b, e = Ev.submitPut a b → a = q' ∧ b = []) ∧
      (∀ t, e = Ev.submitAppend t → t = ⟨q', none, none, none⟩) := by
  intro e he
  unfold genPhase persistEvents openaiChunks claudeChunks at he
  constructor
  · rintro a b rfl
    iterate 8 (all_goals try split at he)
    all_goals simp_all [List.mem_append]
  · rintro t rfl
    iterate 8 (all_goals try split at he)
    all_goals simp_all [List.mem_append]

theorem cachePhase_ret_no_submit (env : QueryEnv) (q : Str) (evs : List Ev)
    (h : cachePhase env q = CacheOut.ret evs) :
    ∀ e ∈ evs, (∀ a b, e ≠ Ev.submitPut a b) ∧ (∀ t, e ≠ Ev.submitAppend t) := by
  intro e he
  unfold cachePhase at h
  iterate 10 (all_goals try split at h)
  all_goals cases h
  all_goals simp_all

/-! ## Claim C10: persisted queries are sanitized -/

/-- C10 (confirmed): for every request carrying query `q`, every record the
run submits to `kv.put` stores the sanitized query (and, because the buffer is
joined before streaming, an empty transcript), and every turn it submits to
the history append stores the sanitized query — never the raw query text. -/
theorem C10_sanitized_query_persisted (env : QueryEnv) (req : QueryReq)
    (q : Str) (hq : req.query = some q) :
    (∀ qp txt, Ev.submitPut qp txt ∈ query_function env req →
      qp = sanitize q) ∧
      (∀ t, Ev.submitAppend t ∈ query_function env req →
        t.query = sanitize q) := by
  obtain ⟨oq, ou, gr⟩ := req
  cases hq
  constructor
  · intro qp txt hmem
    simp only [query_function] at hmem
    iterate 6 (all_goals try split at hmem)
    all_goals first
      | (simp_all
         done)
      | (rename_i heq
         exact absurd rfl
           ((cachePhase_ret_no_submit env q _ heq _ hmem).1 qp txt))
      | exact ((genPhase_submits env gr (sanitize q) _ _ hmem).1 _ _ rfl).1
      | (rcases List.mem_cons.mp hmem with h | h
         · cases h
         · exact ((genPhase_submits env gr (sanitize q) _ _ h).1 _ _ rfl).1)
  · intro t hmem
    simp only [query_function] at hmem
    iterate 6 (all_goals try split at hmem)
    all_goals first
      | (simp_all
         done)
      | (rename_i heq
         exact absurd rfl
           ((cachePhase_ret_no_submit env q _ heq _ hmem).2 t))
      | (rw [(genPhase_submits env gr (sanitize q) _ _ hmem).2 _ rfl])
      | (rcases List.mem_cons.mp hmem with h | h
         · cases h
         · rw [(genPhase_submits env gr (sanitize q) _ _ h).2 _ rfl])

/-- Witness instantiating `C10_sanitized_query_persisted`: the fresh run with
query `"a[INST]b"` persists the record under the sanitized query `"ab"`. -/
theorem C10_sanitized_query_persisted_witness :
    (Ev.submitPut "ab".toList [] ∈ query_function envFresh reqInstMid) ∧
      "ab".toList = sanitize "a[INST]b".toList :=
  ⟨by decide,
    ((C10_sanitized_query_persisted envFresh reqInstMid "a[INST]b".toList
      rfl).1 "ab".toList [] (by decide)).symm ▸ rfl⟩

/-! ## Claim C1: persistence of the full transcript after the stream -/

/-- C1 is a code bug: the `kv.put` submission is made before the
`StreamingResponse` is returned, and `"".join(all_yielded_results)` is
evaluated at submission time, while the buffer is still empty.  On a fresh
OpenAI-path run the trace therefore contains exactly one record write, with
`raw_text = ""`, the put precedes every streamed chunk, and the transcript the
caller actually receives is non-empty — nothing resembling it is persisted. -/
theorem C1_put_precedes_stream_and_stores_empty :
    putEvents (query_function envFresh reqFresh) = [("q".toList, [])] ∧
      transcript (query_function envFresh reqFresh) ≠ [] ∧
      firstPutIdx (query_function envFresh reqFresh) <
        firstChunkIdx (query_function envFresh reqFresh) := by
  decide

/-! ## Claim C7: store lookup failures -/

/-- C7 is a code bug precisely in the case the claim calls out: when the
history lookup succeeds (with a complete most-recent turn whose query equals
the request's), but the session-record lookup fails, line 853 evaluates
`result["txt"]` with `result` unbound, and the `UnboundLocalError` escapes the
handler — the caller gets a server error instead of a regeneration. -/
theorem C7_record_fail_after_history_hit_errors :
    query_function envHistRecFail reqFresh = [Ev.uncaughtError] := by
  decide

/-! ## Claim C3: replay of a stored query -/

/-- C3, as stated, is false in history mode: the most recent turn's query
equals the request query, yet because that turn's stored `search_results` is
empty (falsy), the guard at line 840 skips the short-circuit and the request
regenerates — the search backend is invoked and the stored transcript is not
replayed. -/
theorem C3_counterexample :
    Ev.searchCall ∈ query_function envHistEmptySR reqFresh ∧
      Ev.replay "T".toList ∉ query_function envHistEmptySR reqFresh := by
  decide

/-- C3 (amended): replay holds under the code's guards — in history mode the
most recent turn must also carry a non-empty `search_results` and its query
must be non-empty, and the session-record lookup must have produced a dict
record (whose `txt` is returned, without comparing its own stored query); in
cache mode the record must be a dict whose query equals the request query.
Under these conditions the stored `txt` is returned verbatim and neither the
search nor the generation backend is invoked. -/
theorem C3_replay_amended (env : QueryEnv) (q u txt : Str) (grq : Bool)
    (hq : q ≠ []) (hu : u ≠ [])
    (hcase :
      (env.should_do_chat_history = true ∧
        (∃ q₀, env.recLookup = Lookup.found (StoredVal.dict q₀ txt)) ∧
        ∃ h t c cs, env.histLookup = Lookup.found h ∧ h.getLast? = some t ∧
          t.query = q ∧ t.search_results = some (c :: cs)) ∨
      (env.should_do_chat_history = false ∧
        env.recLookup = Lookup.found (StoredVal.dict q txt))) :
    query_function env ⟨some q, some u, grq⟩ = [Ev.replay txt] := by
  rcases hcase with ⟨hch, ⟨q₀, hrl⟩, h, t, c, cs, hhl, hlast, htq, hsr⟩ |
    ⟨hch, hrl⟩
  · have hcp : cachePhase env q = CacheOut.ret [Ev.replay txt] := by
      simp [cachePhase, hch, hhl, hlast, hsr, htq, hq, hrl]
    simp [query_function, hq, hu, hcp]
  · have hcp : cachePhase env q = CacheOut.ret [Ev.replay txt] := by
      simp [cachePhase, hch, hrl]
    simp [query_function, hq, hu, hcp]

/-- Witness instantiating `C3_replay_amended` in cache mode. -/
theorem C3_replay_amended_witness :
    query_function envReplay reqFresh = [Ev.replay "T".toList] :=
  C3_replay_amended envReplay "q".toList "s".toList "T".toList true
    (by decide) (by decide) (Or.inr ⟨rfl, rfl⟩)

/-! ## Claim C8: request validation -/

/-- C8, as stated, is false: the emptiness check `if not query` runs on the
raw query, and the `[INST]`/`[/INST]` stripping only happens later, after the
cache checks.  A query consisting of exactly `"[INST]"` sanitizes to the empty
string, yet the request is not rejected: the search backend is called (with
the empty sanitized query) and no client-error response is produced. -/
theorem C8_counterexample :
    sanitize "[INST]".toList = [] ∧
      Ev.searchCall ∈ query_function envFresh reqInstOnly ∧
      (query_function envFresh reqInstOnly).all
        (fun e => !isClientError e) = true := by
  decide

/-- C8 (amended): a missing or empty **raw** query, or a missing or empty
session identifier, is rejected with a terminal client-error response before
any backend call; emptiness after `[INST]` stripping is not checked. -/
theorem C8_validation_amended (env : QueryEnv) (req : QueryReq) :
    ((req.query = none ∨ req.query = some []) →
        query_function env req = [Ev.clientError QUERY_MISSING]) ∧
      (∀ q, req.query = some q → q ≠ [] →
        (req.search_uuid = none ∨ req.search_uuid = some []) →
        query_function env req = [Ev.clientError UUID_MISSING]) := by
  constructor
  · rintro (hq | hq) <;> simp [query_function, hq]
  · rintro q hq hne (hu | hu) <;> simp [query_function, hq, hne, hu]

/-- Witness instantiating `C8_validation_amended` at a request with no
session identifier. -/
theorem C8_validation_amended_witness :
    query_function envFresh ⟨some "q".toList, none, true⟩ =
      [Ev.clientError UUID_MISSING] :=
  (C8_validation_amended envFresh ⟨some "q".toList, none, true⟩).2
    "q".toList rfl (by decide) (Or.inl rfl)

end Search4all
